import Mathlib

/-!
Verification of the p2pchat frontend command wrappers (src/utils/backend.ts)
and of the spec-described backend components that the wrappers talk to.

The TypeScript wrappers are shallowly embedded: each wrapper is a Lean
function from an abstract backend (a map from invoked commands to results)
to the pair of the trace of observable events (backend invocations and
console.error logs, in order) and the settled value of the returned promise
(`Except Err Value`: `ok` for a fulfilled promise, `error` for a rejected
one).  A JavaScript function with no return statement fulfils with
`undefined`, embedded as `Value.undef`.
-/

/-- A JavaScript/JSON-like value, as passed through Tauri invoke. -/
inductive Value where
  | undef : Value
  | str : String → Value
  | num : Int → Value
  | arr : List Value → Value
  | obj : List (String × Value) → Value

/-- An optional string argument: an absent optional parameter is `undefined`. -/
def Value.ofOptStr : Option String → Value
  | none => Value.undef
  | some s => Value.str s

/-- An optional structured argument. -/
def Value.ofOpt : Option Value → Value
  | none => Value.undef
  | some v => v

/-- A JavaScript error value thrown by a rejected invoke. -/
abbrev Err := Value

/-- One backend invocation: the command name and its named arguments,
as built by `invoke(cmd, args)` in backend.ts. -/
structure Call where
  cmd : String
  args : List (String × Value)

/-- An observable event of a wrapper: a backend invocation, or a
`console.error` log. -/
inductive Event where
  | call : Call → Event
  | log : Err → Event

/-- The backend: how each invoked command settles. -/
structure Backend where
  invoke : Call → Except Err Value

/-- The backend invocations contained in a trace, in order. -/
def issuedCalls (es : List Event) : List Call :=
  es.filterMap fun e =>
    match e with
    | Event.call c => some c
    | Event.log _ => none

/-- The `console.error` logs contained in a trace, in order. -/
def loggedErrors (es : List Event) : List Err :=
  es.filterMap fun e =>
    match e with
    | Event.call _ => none
    | Event.log err => some err

namespace BackendApi

/-- The call built by `startListen`. -/
def startListenCall (listenAddr : Option String) : Call :=
  ⟨ "start_listen", [("listenAddr", Value.ofOptStr listenAddr)]⟩

/-- Wrapper `startListen` (backend.ts lines 14-23): awaits `invoke<string>("start_listen", ...)`
inside try/catch; the result is not returned; on error it logs and rethrows. -/
def startListen (b : Backend) (listenAddr : Option String) :
    List Event × Except Err Value :=
  match b.invoke (startListenCall listenAddr) with
  | Except.ok _ => ([Event.call (startListenCall listenAddr)], Except.ok Value.undef)
  | Except.error e =>
      ([Event.call (startListenCall listenAddr), Event.log e], Except.error e)

/-- The call built by `getLocalPeerId`. -/
def getLocalPeerIdCall : Call := ⟨ "get_local_peer_id", []⟩

/-- Wrapper `getLocalPeerId` (lines 24-26): `return await invoke<PeerId>("get_local_peer_id")`,
no try/catch. -/
def getLocalPeerId (b : Backend) : List Event × Except Err Value :=
  match b.invoke getLocalPeerIdCall with
  | Except.ok v => ([Event.call getLocalPeerIdCall], Except.ok v)
  | Except.error e => ([Event.call getLocalPeerIdCall], Except.error e)

/-- The call built by `stopListen`. -/
def stopListenCall : Call := ⟨ "stop_listen", []⟩

/-- Wrapper `stopListen` (lines 27-33): try/catch that only logs — the error is not
rethrown, so the promise fulfils with `undefined` either way. -/
def stopListen (b : Backend) : List Event × Except Err Value :=
  match b.invoke stopListenCall with
  | Except.ok _ => ([Event.call stopListenCall], Except.ok Value.undef)
  | Except.error e =>
      ([Event.call stopListenCall, Event.log e], Except.ok Value.undef)

/-- The call built by `getListeners`. -/
def getListenersCall : Call := ⟨ "get_listeners", []⟩

/-- Wrapper `getListeners` (lines 35-42): returns the invoke result; on error logs
and rethrows. -/
def getListeners (b : Backend) : List Event × Except Err Value :=
  match b.invoke getListenersCall with
  | Except.ok v => ([Event.call getListenersCall], Except.ok v)
  | Except.error e =>
      ([Event.call getListenersCall, Event.log e], Except.error e)

/-- The call built by `getFile`. -/
def getFileCall (file : Value) : Call := ⟨ "get_file", [("file", file)]⟩

/-- Wrapper `getFile` (lines 44-50): `await invoke("get_file", ...).catch(err =>
console.error(err))` — a rejection is caught and only logged, and the value
is not returned, so the promise fulfils with `undefined` either way. -/
def getFile (b : Backend) (file : Value) : List Event × Except Err Value :=
  match b.invoke (getFileCall file) with
  | Except.ok _ => ([Event.call (getFileCall file)], Except.ok Value.undef)
  | Except.error e =>
      ([Event.call (getFileCall file), Event.log e], Except.ok Value.undef)

/-- The call built by `startProvide`. -/
def startProvideCall (path : String) (file : Option Value) : Call :=
  ⟨ "start_provide", [("path", Value.str path), ("file", Value.ofOpt file)]⟩

/-- Wrapper `startProvide` (lines 51-62): returns the invoke result (`resfile`); on
error logs and rethrows. -/
def startProvide (b : Backend) (path : String) (file : Option Value) :
    List Event × Except Err Value :=
  match b.invoke (startProvideCall path file) with
  | Except.ok v => ([Event.call (startProvideCall path file)], Except.ok v)
  | Except.error e =>
      ([Event.call (startProvideCall path file), Event.log e], Except.error e)

/-- The call built by `stopProvide`. -/
def stopProvideCall (file : Value) : Call := ⟨ "stop_provide", [("file", file)]⟩

/-- Wrapper `stopProvide` (lines 64-71): awaits the invoke, no return value; on error
logs and rethrows. -/
def stopProvide (b : Backend) (file : Value) : List Event × Except Err Value :=
  match b.invoke (stopProvideCall file) with
  | Except.ok _ => ([Event.call (stopProvideCall file)], Except.ok Value.undef)
  | Except.error e =>
      ([Event.call (stopProvideCall file), Event.log e], Except.error e)

/-- The call built by `loadSetting`. -/
def loadSettingCall (loadPath : Option String) : Call :=
  ⟨ "load_setting", [("loadPath", Value.ofOptStr loadPath)]⟩

/-- Wrapper `loadSetting` (lines 73-81): returns the invoke result; on error logs and
rethrows. -/
def loadSetting (b : Backend) (loadPath : Option String) :
    List Event × Except Err Value :=
  match b.invoke (loadSettingCall loadPath) with
  | Except.ok v => ([Event.call (loadSettingCall loadPath)], Except.ok v)
  | Except.error e =>
      ([Event.call (loadSettingCall loadPath), Event.log e], Except.error e)

/-- The call built by `saveSetting`. -/
def saveSettingCall (setting : Value) (savePath : Option String) : Call :=
  ⟨ "save_setting", [("setting", setting), ("savePath", Value.ofOptStr savePath)]⟩

/-- Wrapper `saveSetting` (lines 83-90): awaits the invoke, no return value; on error
logs and rethrows. -/
def saveSetting (b : Backend) (setting : Value) (savePath : Option String) :
    List Event × Except Err Value :=
  match b.invoke (saveSettingCall setting savePath) with
  | Except.ok _ =>
      ([Event.call (saveSettingCall setting savePath)], Except.ok Value.undef)
  | Except.error e =>
      ([Event.call (saveSettingCall setting savePath), Event.log e], Except.error e)

/-- The call built by `listProvide`. -/
def listProvideCall : Call := ⟨ "list_provide", []⟩

/-- Wrapper `listProvide` (lines 92-100): returns the invoke result; on error logs and
rethrows. -/
def listProvide (b : Backend) : List Event × Except Err Value :=
  match b.invoke listProvideCall with
  | Except.ok v => ([Event.call listProvideCall], Except.ok v)
  | Except.error e =>
      ([Event.call listProvideCall, Event.log e], Except.error e)

/-- The call built by `connectedPeers`. -/
def connectedPeersCall : Call := ⟨ "connected_peers", []⟩

/-- Wrapper `connectedPeers` (lines 102-110): returns the invoke result; on error logs
and rethrows. -/
def connectedPeers (b : Backend) : List Event × Except Err Value :=
  match b.invoke connectedPeersCall with
  | Except.ok v => ([Event.call connectedPeersCall], Except.ok v)
  | Except.error e =>
      ([Event.call connectedPeersCall, Event.log e], Except.error e)

/-- The call built by `dial`. -/
def dialCall (addr : String) : Call := ⟨ "dial", [("addr", Value.str addr)]⟩

/-- Wrapper `dial` (lines 112-119): awaits the invoke, no return value; on error logs
and rethrows. -/
def dial (b : Backend) (addr : String) : List Event × Except Err Value :=
  match b.invoke (dialCall addr) with
  | Except.ok _ => ([Event.call (dialCall addr)], Except.ok Value.undef)
  | Except.error e =>
      ([Event.call (dialCall addr), Event.log e], Except.error e)

/-- The call built by `publishMessage`. -/
def publishMessageCall (groupId : String) (message : Value) : Call :=
  ⟨ "publish_message", [("groupId", Value.str groupId), ("message", message)]⟩

/-- Wrapper `publishMessage` (lines 121-131): awaits the invoke, no return value; on
error logs and rethrows. -/
def publishMessage (b : Backend) (groupId : String) (message : Value) :
    List Event × Except Err Value :=
  match b.invoke (publishMessageCall groupId message) with
  | Except.ok _ =>
      ([Event.call (publishMessageCall groupId message)], Except.ok Value.undef)
  | Except.error e =>
      ([Event.call (publishMessageCall groupId message), Event.log e], Except.error e)

/-- The call built by `subscribe`. -/
def subscribeCall (groupId : String) : Call :=
  ⟨ "subscribe", [("groupId", Value.str groupId)]⟩

/-- Wrapper `subscribe` (lines 133-140): awaits the invoke, no return value; on error
logs and rethrows. -/
def subscribe (b : Backend) (groupId : String) : List Event × Except Err Value :=
  match b.invoke (subscribeCall groupId) with
  | Except.ok _ => ([Event.call (subscribeCall groupId)], Except.ok Value.undef)
  | Except.error e =>
      ([Event.call (subscribeCall groupId), Event.log e], Except.error e)

/-- The call built by `getGroups`: the generic manager dispatch command. -/
def getGroupsCall : Call :=
  ⟨ "invoke_manager",
    [("name", Value.str "group"), ("action", Value.str "get_groups")]⟩

/-- Wrapper `getGroups` (lines 142-147): `return await invoke("invoke_manager", ...)`,
no try/catch. -/
def getGroups (b : Backend) : List Event × Except Err Value :=
  match b.invoke getGroupsCall with
  | Except.ok v => ([Event.call getGroupsCall], Except.ok v)
  | Except.error e => ([Event.call getGroupsCall], Except.error e)

/-- The call built by `newGroup`. -/
def newGroupCall (groupInfo : Value) : Call :=
  ⟨ "new_group", [("groupInfo", groupInfo)]⟩

/-- Wrapper `newGroup` (lines 149-151): `return await invoke<GroupId>("new_group", ...)`,
no try/catch. -/
def newGroup (b : Backend) (groupInfo : Value) : List Event × Except Err Value :=
  match b.invoke (newGroupCall groupInfo) with
  | Except.ok v => ([Event.call (newGroupCall groupInfo)], Except.ok v)
  | Except.error e => ([Event.call (newGroupCall groupInfo)], Except.error e)

/-- The call built by `getGroupState`: manager dispatch carrying the GroupId
as `params`. -/
def getGroupStateCall (groupId : String) : Call :=
  ⟨ "invoke_manager",
    [("name", Value.str "group"), ("action", Value.str "get_group_state"),
     ("params", Value.str groupId)]⟩

/-- Wrapper `getGroupState` (lines 153-159): `return await invoke("invoke_manager", ...)`
with `params: groupId`, no try/catch. -/
def getGroupState (b : Backend) (groupId : String) : List Event × Except Err Value :=
  match b.invoke (getGroupStateCall groupId) with
  | Except.ok v => ([Event.call (getGroupStateCall groupId)], Except.ok v)
  | Except.error e => ([Event.call (getGroupStateCall groupId)], Except.error e)

/-- The call built by `getUsers`: the generic manager dispatch command. -/
def getUsersCall : Call :=
  ⟨ "invoke_manager",
    [("name", Value.str "user"), ("action", Value.str "get_users")]⟩

/-- Wrapper `getUsers` (lines 161-166): `return await invoke("invoke_manager", ...)`,
no try/catch. -/
def getUsers (b : Backend) : List Event × Except Err Value :=
  match b.invoke getUsersCall with
  | Except.ok v => ([Event.call getUsersCall], Except.ok v)
  | Except.error e => ([Event.call getUsersCall], Except.error e)

end BackendApi

/-!
Spec-modelled backend components.  The repository's Rust backend (the Tauri
side answering the invoked commands) is not present in the sources — only its
Cargo manifest is — so the components the claims C5-C8 speak about are
modelled from the spec's own words (spec.md §4.2, §4.3, §4.5, §6, §8).
-/

namespace Core

/-- A peer identifier. -/
abbrev PeerId := String

/-- A content key addressing a file independently of which peer serves it. -/
abbrev ContentKey := String

/-- A group identifier. -/
abbrev GroupId := String

/-- Modelled from the spec: a Setting is the durable node configuration —
identity seed/keypair reference, default listen addresses, known bootstrap
peers (spec.md §3); the SettingsStore component itself is missing from src/. -/
structure Setting where
  identitySeed : String
  listenAddrs : List String
  bootstrapPeers : List String
deriving DecidableEq, Repr

/-- Modelled from the spec: the persistence collaborator for Setting — an
opaque store of structured blobs keyed by an optional path, defaulting to a
standard location (spec.md §6); missing from src/. -/
structure SettingsStore where
  stored : String → Option Setting

/-- The standard default location used when no path override is given. -/
def defaultSettingPath : String := "default-setting-path"

/-- The effective path of an optional path override. -/
def settingPath : Option String → String
  | none => defaultSettingPath
  | some p => p

/-- Modelled from the spec: `save_setting` writes the Setting blob at the
optional path, defaulting to the standard location (spec.md §6, §8);
missing from src/. -/
def save_setting (st : SettingsStore) (s : Setting) (savePath : Option String) :
    SettingsStore :=
  ⟨fun p => if p = settingPath savePath then some s else st.stored p⟩

/-- An error surfaced by a backend component. -/
inductive CoreErr where
  | notFound : CoreErr
  | unreachable : CoreErr
  | allProvidersFailed : CoreErr
deriving DecidableEq, Repr

/-- Modelled from the spec: `load_setting` reads the Setting blob at the
optional path, defaulting to the standard location (spec.md §6, §8);
missing from src/. -/
def load_setting (st : SettingsStore) (loadPath : Option String) :
    Except CoreErr Setting :=
  match st.stored (settingPath loadPath) with
  | some s => Except.ok s
  | none => Except.error CoreErr.notFound

/-- Modelled from the spec: the ContentDirectory — a distributed
key-to-provider-set index; `announcements` records which (contentKey, peer)
provider claims have been published, and `online` whether the directory is
reachable at all (a network-level failure makes it unreachable) (spec.md
§4.2); missing from src/. -/
structure Directory where
  announcements : List (ContentKey × PeerId)
  online : Bool

/-- The providers the directory holds for a key, in the directory's order. -/
def providersFor (d : Directory) (key : ContentKey) : List PeerId :=
  (d.announcements.filter fun a => a.1 = key).map Prod.snd

/-- Modelled from the spec: `findProviders(contentKey)` returns the
directory's (possibly empty) provider sequence for the key; only a
network-level directory failure is surfaced as an error (spec.md §4.2, §8);
missing from src/. -/
def findProviders (d : Directory) (key : ContentKey) :
    Except CoreErr (List PeerId) :=
  if d.online then Except.ok (providersFor d key) else Except.error CoreErr.unreachable

/-- Modelled from the spec: the network as seen by the FileTransferService
client role — which peers are currently reachable, what bytes a peer serves
for a content key, and the size each content key advertises (spec.md §4.3);
missing from src/. -/
structure Network where
  directory : Directory
  reachable : PeerId → Bool
  serves : PeerId → ContentKey → Option (List Nat)
  advertisedSize : ContentKey → Nat

/-- One transfer attempt against one provider: succeeds when the provider is
currently reachable and streams bytes whose count matches the advertised
size (spec.md §4.3 client role, step 3). -/
def attemptFetch (net : Network) (key : ContentKey) (p : PeerId) :
    Option (List Nat) :=
  if net.reachable p then
    match net.serves p key with
    | some bs => if bs.length = net.advertisedSize key then some bs else none
    | none => none
  else none

/-- The linear-fallback walk over a provider list: attempts providers in
order, stopping at the first success; returns the providers attempted (in
order) and the bytes of the first successful attempt, if any. -/
def fetchFallback (net : Network) (key : ContentKey) :
    List PeerId → List PeerId × Option (List Nat)
  | [] => ([], none)
  | p :: ps =>
    match attemptFetch net key p with
    | some bs => ([p], some bs)
    | none =>
      let rest := fetchFallback net key ps
      (p :: rest.1, rest.2)

/-- Modelled from the spec: `fetch(contentKey)` asks the directory for
providers and attempts them in directory order, failing only after all are
exhausted (spec.md §4.3 client role); missing from src/.  Returns the
attempted providers and the result. -/
def fetch (net : Network) (key : ContentKey) :
    List PeerId × Except CoreErr (List Nat) :=
  match findProviders net.directory key with
  | Except.error e => ([], Except.error e)
  | Except.ok provs =>
    let walk := fetchFallback net key provs
    match walk.2 with
    | some bs => (walk.1, Except.ok bs)
    | none => (walk.1, Except.error CoreErr.allProvidersFailed)

/-- Modelled from the spec: a GroupMessage — sender, groupId, payload,
timestamp, sequence (spec.md §3); missing from src/. -/
structure GroupMessage where
  sender : PeerId
  groupId : GroupId
  payload : String
  timestamp : Nat
  sequence : Nat
deriving DecidableEq, Repr

/-- Modelled from the spec: a GroupState — member set and ordered message
sequence, mutated only by delivery/membership events (spec.md §3); missing
from src/. -/
structure GroupState where
  members : List PeerId
  messages : List GroupMessage
deriving DecidableEq, Repr

/-- How many messages of a sequence carry a given (sender, sequence) key. -/
def countKey (msgs : List GroupMessage) (s : PeerId) (n : Nat) : Nat :=
  (msgs.filter fun m => m.sender == s && m.sequence == n).length

/-- Modelled from the spec: idempotent application of a delivered message to
a GroupState, keyed on (sender, sequence) — a duplicate is dropped, a new
message is appended (spec.md §4.4, §8); missing from src/. -/
def applyMessage (st : GroupState) (m : GroupMessage) : GroupState :=
  if st.messages.any fun m2 => m2.sender == m.sender && m2.sequence == m.sequence then st
  else { st with messages := st.messages ++ [m] }

/-- Modelled from the spec: the GroupRegistry — the authoritative local view
of known groups and their state (spec.md §4.5); missing from src/. -/
structure GroupRegistry where
  groups : GroupId → Option GroupState

/-- Modelled from the spec: a GroupMessaging delivery mutates the registry;
a message for an unknown GroupId is dropped rather than implicitly creating
group state (spec.md §4.5); missing from src/. -/
def deliverMessage (r : GroupRegistry) (m : GroupMessage) : GroupRegistry :=
  match r.groups m.groupId with
  | none => r
  | some st =>
    ⟨fun g => if g = m.groupId then some (applyMessage st m) else r.groups g⟩

/-- Modelled from the spec: `getGroupState(GroupId)` is a pure read accessor
over the registry, `GroupState or NotFound` (spec.md §4.5); missing from
src/. -/
def getGroupState (r : GroupRegistry) (g : GroupId) : Option GroupState :=
  r.groups g

end Core

/-!
Helper lemmas: the backend invocations each wrapper issues, independent of
whether the invocation fulfils or rejects.
-/

namespace BackendApi

theorem startListen_issued (b : Backend) (a : Option String) :
    issuedCalls (startListen b a).1 = [startListenCall a] := by
  cases h : b.invoke (startListenCall a) <;> simp [startListen, h, issuedCalls]

theorem getLocalPeerId_issued (b : Backend) :
    issuedCalls (getLocalPeerId b).1 = [getLocalPeerIdCall] := by
  cases h : b.invoke getLocalPeerIdCall <;> simp [getLocalPeerId, h, issuedCalls]

theorem stopListen_issued (b : Backend) :
    issuedCalls (stopListen b).1 = [stopListenCall] := by
  cases h : b.invoke stopListenCall <;> simp [stopListen, h, issuedCalls]

theorem getListeners_issued (b : Backend) :
    issuedCalls (getListeners b).1 = [getListenersCall] := by
  cases h : b.invoke getListenersCall <;> simp [getListeners, h, issuedCalls]

theorem getFile_issued (b : Backend) (file : Value) :
    issuedCalls (getFile b file).1 = [getFileCall file] := by
  cases h : b.invoke (getFileCall file) <;> simp [getFile, h, issuedCalls]

theorem startProvide_issued (b : Backend) (path : String) (file : Option Value) :
    issuedCalls (startProvide b path file).1 = [startProvideCall path file] := by
  cases h : b.invoke (startProvideCall path file) <;>
    simp [startProvide, h, issuedCalls]

theorem stopProvide_issued (b : Backend) (file : Value) :
    issuedCalls (stopProvide b file).1 = [stopProvideCall file] := by
  cases h : b.invoke (stopProvideCall file) <;> simp [stopProvide, h, issuedCalls]

theorem loadSetting_issued (b : Backend) (lp : Option String) :
    issuedCalls (loadSetting b lp).1 = [loadSettingCall lp] := by
  cases h : b.invoke (loadSettingCall lp) <;> simp [loadSetting, h, issuedCalls]

theorem saveSetting_issued (b : Backend) (s : Value) (sp : Option String) :
    issuedCalls (saveSetting b s sp).1 = [saveSettingCall s sp] := by
  cases h : b.invoke (saveSettingCall s sp) <;> simp [saveSetting, h, issuedCalls]

theorem listProvide_issued (b : Backend) :
    issuedCalls (listProvide b).1 = [listProvideCall] := by
  cases h : b.invoke listProvideCall <;> simp [listProvide, h, issuedCalls]

theorem connectedPeers_issued (b : Backend) :
    issuedCalls (connectedPeers b).1 = [connectedPeersCall] := by
  cases h : b.invoke connectedPeersCall <;> simp [connectedPeers, h, issuedCalls]

theorem dial_issued (b : Backend) (addr : String) :
    issuedCalls (dial b addr).1 = [dialCall addr] := by
  cases h : b.invoke (dialCall addr) <;> simp [dial, h, issuedCalls]

theorem publishMessage_issued (b : Backend) (gid : String) (msg : Value) :
    issuedCalls (publishMessage b gid msg).1 = [publishMessageCall gid msg] := by
  cases h : b.invoke (publishMessageCall gid msg) <;>
    simp [publishMessage, h, issuedCalls]

theorem subscribe_issued (b : Backend) (gid : String) :
    issuedCalls (subscribe b gid).1 = [subscribeCall gid] := by
  cases h : b.invoke (subscribeCall gid) <;> simp [subscribe, h, issuedCalls]

theorem getGroups_issued (b : Backend) :
    issuedCalls (getGroups b).1 = [getGroupsCall] := by
  cases h : b.invoke getGroupsCall <;> simp [getGroups, h, issuedCalls]

theorem newGroup_issued (b : Backend) (gi : Value) :
    issuedCalls (newGroup b gi).1 = [newGroupCall gi] := by
  cases h : b.invoke (newGroupCall gi) <;> simp [newGroup, h, issuedCalls]

theorem getGroupState_issued (b : Backend) (gid : String) :
    issuedCalls (getGroupState b gid).1 = [getGroupStateCall gid] := by
  cases h : b.invoke (getGroupStateCall gid) <;>
    simp [getGroupState, h, issuedCalls]

theorem getUsers_issued (b : Backend) :
    issuedCalls (getUsers b).1 = [getUsersCall] := by
  cases h : b.invoke getUsersCall <;> simp [getUsers, h, issuedCalls]

end BackendApi

/-!
Claims C1-C4.
-/

/-- Backend fixture that accepts the listen request and produces the accepted
address as the invoke result. -/
def C1backend : Backend :=
  ⟨fun _ => Except.ok (Value.str "/ip4/127.0.0.1/tcp/4001")⟩

/-- C1 counterexample: the backend produces the accepted address for the
`start_listen` invocation, yet the value of the `startListen` promise is not
that address — the wrapper discards the backend's result. -/
theorem C1_counterexample :
    C1backend.invoke (BackendApi.startListenCall (some "/ip4/127.0.0.1/tcp/4001")) =
      Except.ok (Value.str "/ip4/127.0.0.1/tcp/4001")
    ∧ (BackendApi.startListen C1backend (some "/ip4/127.0.0.1/tcp/4001")).2 ≠
      Except.ok (Value.str "/ip4/127.0.0.1/tcp/4001") := by
  refine ⟨rfl, fun h => ?_⟩
  have h2 : (BackendApi.startListen C1backend (some "/ip4/127.0.0.1/tcp/4001")).2 =
      Except.ok Value.undef := rfl
  rw [h2] at h
  simp at h

/-- C1 (amended): for every optional listen address, `startListen` issues the
single `start_listen` invocation but discards the accepted address the backend
produced: whenever the invocation fulfils — with any value — the wrapper's
promise fulfils with `undefined`. -/
theorem C1_startListen_discards_address (b : Backend) (addr : Option String)
    (v : Value) (h : b.invoke (BackendApi.startListenCall addr) = Except.ok v) :
    issuedCalls (BackendApi.startListen b addr).1 = [BackendApi.startListenCall addr]
    ∧ (BackendApi.startListen b addr).2 = Except.ok Value.undef := by
  refine ⟨BackendApi.startListen_issued b addr, ?_⟩
  simp [BackendApi.startListen, h]

/-- Witness for C1: at the concrete accepting backend, the single invocation
is issued and the promise fulfils with `undefined`. -/
theorem C1_startListen_discards_address_witness :
    issuedCalls (BackendApi.startListen C1backend (some "/ip4/127.0.0.1/tcp/4001")).1 =
      [BackendApi.startListenCall (some "/ip4/127.0.0.1/tcp/4001")]
    ∧ (BackendApi.startListen C1backend (some "/ip4/127.0.0.1/tcp/4001")).2 =
      Except.ok Value.undef :=
  C1_startListen_discards_address C1backend (some "/ip4/127.0.0.1/tcp/4001")
    (Value.str "/ip4/127.0.0.1/tcp/4001") rfl

/-- Backend fixture on which every invocation rejects with the same error. -/
def C2backend : Backend :=
  ⟨fun _ => Except.error (Value.str "backend failure")⟩

/-- C2 counterexample: the underlying `stop_listen` and `get_file` invocations
both reject, yet `stopListen`'s and `getFile`'s promises both fulfil (with
`undefined`) instead of rejecting. -/
theorem C2_counterexample :
    C2backend.invoke BackendApi.stopListenCall =
      Except.error (Value.str "backend failure")
    ∧ (BackendApi.stopListen C2backend).2 = Except.ok Value.undef
    ∧ C2backend.invoke (BackendApi.getFileCall Value.undef) =
      Except.error (Value.str "backend failure")
    ∧ (BackendApi.getFile C2backend Value.undef).2 = Except.ok Value.undef :=
  ⟨rfl, rfl, rfl, rfl⟩

/-- C2 (amended): per-operation backend failures of `stopListen` and `getFile`
are not reported through those operations' results: both wrappers catch the
rejection, log it to the console, and fulfil with `undefined` (the other
wrapper operations do reject, see the rethrow theorem of C9). -/
theorem C2_stopListen_getFile_swallow (b : Backend) (e : Err) (file : Value)
    (h1 : b.invoke BackendApi.stopListenCall = Except.error e)
    (h2 : b.invoke (BackendApi.getFileCall file) = Except.error e) :
    (BackendApi.stopListen b).2 = Except.ok Value.undef
    ∧ loggedErrors (BackendApi.stopListen b).1 = [e]
    ∧ (BackendApi.getFile b file).2 = Except.ok Value.undef
    ∧ loggedErrors (BackendApi.getFile b file).1 = [e] := by
  refine ⟨?_, ?_, ?_, ?_⟩ <;>
    simp [BackendApi.stopListen, BackendApi.getFile, h1, h2, loggedErrors]

/-- Witness for C2's amended theorem at the concrete rejecting backend. -/
theorem C2_stopListen_getFile_swallow_witness :
    (BackendApi.stopListen C2backend).2 = Except.ok Value.undef
    ∧ loggedErrors (BackendApi.stopListen C2backend).1 = [Value.str "backend failure"]
    ∧ (BackendApi.getFile C2backend Value.undef).2 = Except.ok Value.undef
    ∧ loggedErrors (BackendApi.getFile C2backend Value.undef).1 =
      [Value.str "backend failure"] :=
  C2_stopListen_getFile_swallow C2backend (Value.str "backend failure")
    Value.undef rfl rfl

/-- C3: the registry reads getGroups, getGroupState and getUsers are all
dispatched through the single `invoke_manager` command, selected by the
runtime name strings `group`/`user` and the action strings `get_groups`,
`get_group_state`, `get_users`, with getGroupState passing the GroupId as
`params`; every other wrapper operation issues its own named command. -/
theorem C3_manager_dispatch (b : Backend) (gid : String) (addr : Option String)
    (file msg setting gi : Value) (path daddr : String) (fo : Option Value)
    (lp sp : Option String) :
    issuedCalls (BackendApi.getGroups b).1 =
      [⟨ "invoke_manager",
         [("name", Value.str "group"), ("action", Value.str "get_groups")]⟩]
    ∧ issuedCalls (BackendApi.getGroupState b gid).1 =
      [⟨ "invoke_manager",
         [("name", Value.str "group"), ("action", Value.str "get_group_state"),
          ("params", Value.str gid)]⟩]
    ∧ issuedCalls (BackendApi.getUsers b).1 =
      [⟨ "invoke_manager",
         [("name", Value.str "user"), ("action", Value.str "get_users")]⟩]
    ∧ (issuedCalls (BackendApi.startListen b addr).1).map Call.cmd = ["start_listen"]
    ∧ (issuedCalls (BackendApi.getLocalPeerId b).1).map Call.cmd = ["get_local_peer_id"]
    ∧ (issuedCalls (BackendApi.stopListen b).1).map Call.cmd = ["stop_listen"]
    ∧ (issuedCalls (BackendApi.getListeners b).1).map Call.cmd = ["get_listeners"]
    ∧ (issuedCalls (BackendApi.getFile b file).1).map Call.cmd = ["get_file"]
    ∧ (issuedCalls (BackendApi.startProvide b path fo).1).map Call.cmd = ["start_provide"]
    ∧ (issuedCalls (BackendApi.stopProvide b file).1).map Call.cmd = ["stop_provide"]
    ∧ (issuedCalls (BackendApi.loadSetting b lp).1).map Call.cmd = ["load_setting"]
    ∧ (issuedCalls (BackendApi.saveSetting b setting sp).1).map Call.cmd = ["save_setting"]
    ∧ (issuedCalls (BackendApi.listProvide b).1).map Call.cmd = ["list_provide"]
    ∧ (issuedCalls (BackendApi.connectedPeers b).1).map Call.cmd = ["connected_peers"]
    ∧ (issuedCalls (BackendApi.dial b daddr).1).map Call.cmd = ["dial"]
    ∧ (issuedCalls (BackendApi.publishMessage b gid msg).1).map Call.cmd = ["publish_message"]
    ∧ (issuedCalls (BackendApi.subscribe b gid).1).map Call.cmd = ["subscribe"]
    ∧ (issuedCalls (BackendApi.newGroup b gi).1).map Call.cmd = ["new_group"] := by
  refine ⟨BackendApi.getGroups_issued b, BackendApi.getGroupState_issued b gid,
    BackendApi.getUsers_issued b, ?_, ?_, ?_, ?_, ?_, ?_, ?_, ?_, ?_, ?_, ?_,
    ?_, ?_, ?_, ?_⟩
  · rw [BackendApi.startListen_issued]; rfl
  · rw [BackendApi.getLocalPeerId_issued]; rfl
  · rw [BackendApi.stopListen_issued]; rfl
  · rw [BackendApi.getListeners_issued]; rfl
  · rw [BackendApi.getFile_issued]; rfl
  · rw [BackendApi.startProvide_issued]; rfl
  · rw [BackendApi.stopProvide_issued]; rfl
  · rw [BackendApi.loadSetting_issued]; rfl
  · rw [BackendApi.saveSetting_issued]; rfl
  · rw [BackendApi.listProvide_issued]; rfl
  · rw [BackendApi.connectedPeers_issued]; rfl
  · rw [BackendApi.dial_issued]; rfl
  · rw [BackendApi.publishMessage_issued]; rfl
  · rw [BackendApi.subscribe_issued]; rfl
  · rw [BackendApi.newGroup_issued]; rfl

/-- C4: no wrapper operation retries automatically — every call of dial (and
of every other wrapper), on any backend, fulfilment or rejection alike,
issues exactly one backend invocation. -/
theorem C4_exactly_one_invocation (b : Backend) (gid : String)
    (addr : Option String) (file msg setting gi : Value) (path daddr : String)
    (fo : Option Value) (lp sp : Option String) :
    (issuedCalls (BackendApi.dial b daddr).1).length = 1
    ∧ (issuedCalls (BackendApi.startListen b addr).1).length = 1
    ∧ (issuedCalls (BackendApi.getLocalPeerId b).1).length = 1
    ∧ (issuedCalls (BackendApi.stopListen b).1).length = 1
    ∧ (issuedCalls (BackendApi.getListeners b).1).length = 1
    ∧ (issuedCalls (BackendApi.getFile b file).1).length = 1
    ∧ (issuedCalls (BackendApi.startProvide b path fo).1).length = 1
    ∧ (issuedCalls (BackendApi.stopProvide b file).1).length = 1
    ∧ (issuedCalls (BackendApi.loadSetting b lp).1).length = 1
    ∧ (issuedCalls (BackendApi.saveSetting b setting sp).1).length = 1
    ∧ (issuedCalls (BackendApi.listProvide b).1).length = 1
    ∧ (issuedCalls (BackendApi.connectedPeers b).1).length = 1
    ∧ (issuedCalls (BackendApi.publishMessage b gid msg).1).length = 1
    ∧ (issuedCalls (BackendApi.subscribe b gid).1).length = 1
    ∧ (issuedCalls (BackendApi.getGroups b).1).length = 1
    ∧ (issuedCalls (BackendApi.newGroup b gi).1).length = 1
    ∧ (issuedCalls (BackendApi.getGroupState b gid).1).length = 1
    ∧ (issuedCalls (BackendApi.getUsers b).1).length = 1 := by
  refine ⟨?_, ?_, ?_, ?_, ?_, ?_, ?_, ?_, ?_, ?_, ?_, ?_, ?_, ?_, ?_, ?_, ?_, ?_⟩
  · rw [BackendApi.dial_issued]; rfl
  · rw [BackendApi.startListen_issued]; rfl
  · rw [BackendApi.getLocalPeerId_issued]; rfl
  · rw [BackendApi.stopListen_issued]; rfl
  · rw [BackendApi.getListeners_issued]; rfl
  · rw [BackendApi.getFile_issued]; rfl
  · rw [BackendApi.startProvide_issued]; rfl
  · rw [BackendApi.stopProvide_issued]; rfl
  · rw [BackendApi.loadSetting_issued]; rfl
  · rw [BackendApi.saveSetting_issued]; rfl
  · rw [BackendApi.listProvide_issued]; rfl
  · rw [BackendApi.connectedPeers_issued]; rfl
  · rw [BackendApi.publishMessage_issued]; rfl
  · rw [BackendApi.subscribe_issued]; rfl
  · rw [BackendApi.getGroups_issued]; rfl
  · rw [BackendApi.newGroup_issued]; rfl
  · rw [BackendApi.getGroupState_issued]; rfl
  · rw [BackendApi.getUsers_issued]; rfl

/-!
Claims C9-C10.
-/

/-- Backend fixture on which every invocation rejects with a fixed error. -/
def C9backend : Backend := ⟨fun _ => Except.error (Value.str "rejected")⟩

/-- C9: every wrapper that wraps its invocation in try/catch other than
stopListen and getFile — startListen, getListeners, startProvide,
stopProvide, loadSetting, saveSetting, listProvide, connectedPeers, dial,
publishMessage, subscribe — rethrows a backend rejection unchanged: on a
backend whose invocations reject with error `e`, each of these wrappers'
promises rejects with exactly `e`. -/
theorem C9_rethrow_unchanged (b : Backend) (e : Err)
    (h : ∀ c, b.invoke c = Except.error e) (addr : Option String)
    (path daddr gid : String) (fo : Option Value) (file msg setting : Value)
    (lp sp : Option String) :
    (BackendApi.startListen b addr).2 = Except.error e
    ∧ (BackendApi.getListeners b).2 = Except.error e
    ∧ (BackendApi.startProvide b path fo).2 = Except.error e
    ∧ (BackendApi.stopProvide b file).2 = Except.error e
    ∧ (BackendApi.loadSetting b lp).2 = Except.error e
    ∧ (BackendApi.saveSetting b setting sp).2 = Except.error e
    ∧ (BackendApi.listProvide b).2 = Except.error e
    ∧ (BackendApi.connectedPeers b).2 = Except.error e
    ∧ (BackendApi.dial b daddr).2 = Except.error e
    ∧ (BackendApi.publishMessage b gid msg).2 = Except.error e
    ∧ (BackendApi.subscribe b gid).2 = Except.error e := by
  refine ⟨?_, ?_, ?_, ?_, ?_, ?_, ?_, ?_, ?_, ?_, ?_⟩ <;>
    simp [BackendApi.startListen, BackendApi.getListeners,
      BackendApi.startProvide, BackendApi.stopProvide, BackendApi.loadSetting,
      BackendApi.saveSetting, BackendApi.listProvide,
      BackendApi.connectedPeers, BackendApi.dial, BackendApi.publishMessage,
      BackendApi.subscribe, h]

/-- Witness for C9 at the concrete rejecting backend. -/
theorem C9_rethrow_unchanged_witness :
    (BackendApi.startListen C9backend none).2 = Except.error (Value.str "rejected")
    ∧ (BackendApi.getListeners C9backend).2 = Except.error (Value.str "rejected")
    ∧ (BackendApi.startProvide C9backend "p" none).2 = Except.error (Value.str "rejected")
    ∧ (BackendApi.stopProvide C9backend Value.undef).2 = Except.error (Value.str "rejected")
    ∧ (BackendApi.loadSetting C9backend none).2 = Except.error (Value.str "rejected")
    ∧ (BackendApi.saveSetting C9backend Value.undef none).2 = Except.error (Value.str "rejected")
    ∧ (BackendApi.listProvide C9backend).2 = Except.error (Value.str "rejected")
    ∧ (BackendApi.connectedPeers C9backend).2 = Except.error (Value.str "rejected")
    ∧ (BackendApi.dial C9backend "a").2 = Except.error (Value.str "rejected")
    ∧ (BackendApi.publishMessage C9backend "g" Value.undef).2 = Except.error (Value.str "rejected")
    ∧ (BackendApi.subscribe C9backend "g").2 = Except.error (Value.str "rejected") :=
  C9_rethrow_unchanged C9backend (Value.str "rejected") (fun _ => rfl) none
    "p" "a" "g" none Value.undef Value.undef Value.undef none none

/-- The behaviour the claim describes as the specification side of the
refinement: a single direct backend invocation whose value is forwarded
unmodified and whose rejection propagates, with no other observable event. -/
def directInvoke (b : Backend) (c : Call) : List Event × Except Err Value :=
  ([Event.call c], b.invoke c)

/-- C10: getLocalPeerId and newGroup are pure pass-throughs — each is
extensionally equal to the single direct backend invocation of
`get_local_peer_id` and `new_group` respectively: the backend's value is
forwarded unmodified, any rejection propagates, and nothing is logged. -/
theorem C10_pass_through (b : Backend) (gi : Value) :
    BackendApi.getLocalPeerId b = directInvoke b BackendApi.getLocalPeerIdCall
    ∧ BackendApi.newGroup b gi = directInvoke b (BackendApi.newGroupCall gi)
    ∧ loggedErrors (BackendApi.getLocalPeerId b).1 = []
    ∧ loggedErrors (BackendApi.newGroup b gi).1 = [] := by
  refine ⟨?_, ?_, ?_, ?_⟩ <;>
    cases h1 : b.invoke BackendApi.getLocalPeerIdCall <;>
    cases h2 : b.invoke (BackendApi.newGroupCall gi) <;>
    simp [BackendApi.getLocalPeerId, BackendApi.newGroup, directInvoke, h1, h2,
      loggedErrors]

/-!
Claims C5, C7, C8 — properties of the spec-modelled backend components.
-/

/-- C5: round-trip — for every Setting s and every store state, save_setting
with no path override followed by load_setting with no path override yields a
Setting equal to s. -/
theorem C5_setting_round_trip (st : Core.SettingsStore) (s : Core.Setting) :
    Core.load_setting (Core.save_setting st s none) none = Except.ok s := by
  simp [Core.load_setting, Core.save_setting, Core.settingPath]

/-- Helper: a never-announced key has no providers in the directory. -/
theorem providersFor_of_never_announced (d : Core.Directory) (key : Core.ContentKey)
    (h : key ∉ d.announcements.map Prod.fst) :
    Core.providersFor d key = [] := by
  rw [Core.providersFor, List.map_eq_nil_iff, List.filter_eq_nil_iff]
  intro a ha
  simp only [decide_eq_true_eq]
  intro hk
  exact h (List.mem_map.mpr ⟨a, ha, hk⟩)

/-- C7: findProviders on a key that has never been announced returns the
empty sequence whenever the directory is reachable, never an error; an error
is surfaced exactly when the directory itself is unreachable (a network-level
failure), so an empty result is distinguished from a directory failure. -/
theorem C7_findProviders_never_announced (d : Core.Directory)
    (key : Core.ContentKey) (h : key ∉ d.announcements.map Prod.fst) :
    (d.online = true → Core.findProviders d key = Except.ok [])
    ∧ ((∃ e, Core.findProviders d key = Except.error e) ↔ d.online = false) := by
  have hp := providersFor_of_never_announced d key h
  refine ⟨fun ho => by simp [Core.findProviders, ho, hp], ?_⟩
  cases honline : d.online with
  | true => simp [Core.findProviders, honline]
  | false => simp [Core.findProviders, honline]

/-- Directory fixture: one announcement for another key, directory online. -/
def C7directory : Core.Directory := ⟨[("somekey", "peer1")], true⟩

/-- Witness for C7: on the concrete online directory, a key never announced
yields the empty provider list and no error. -/
theorem C7_findProviders_never_announced_witness :
    (C7directory.online = true →
       Core.findProviders C7directory "unknownkey" = Except.ok [])
    ∧ ((∃ e, Core.findProviders C7directory "unknownkey" = Except.error e) ↔
       C7directory.online = false) :=
  C7_findProviders_never_announced C7directory "unknownkey" (by decide)

/-- Helper: delivering a message for a known group applies it to that group's
state. -/
theorem deliverMessage_known (r : Core.GroupRegistry) (m : Core.GroupMessage)
    (st : Core.GroupState) (h : r.groups m.groupId = some st) :
    (Core.deliverMessage r m).groups m.groupId =
      some (Core.applyMessage st m) := by
  simp [Core.deliverMessage, h]

/-- C8: message application is idempotent on the (sender, sequence) key —
delivering the same GroupMessage twice to a registry whose group state does
not yet hold that key leaves getGroupState containing exactly one copy of
that message. -/
theorem C8_duplicate_delivery_one_copy (r : Core.GroupRegistry)
    (st : Core.GroupState) (m : Core.GroupMessage)
    (h1 : r.groups m.groupId = some st)
    (h2 : Core.countKey st.messages m.sender m.sequence = 0) :
    Core.getGroupState (Core.deliverMessage (Core.deliverMessage r m) m)
        m.groupId = some (Core.applyMessage st m)
    ∧ Core.countKey (Core.applyMessage st m).messages m.sender m.sequence = 1 := by
  have hfilter : st.messages.filter
      (fun m2 => m2.sender == m.sender && m2.sequence == m.sequence) = [] :=
    List.length_eq_zero.mp h2
  have hnotmem : ∀ x ∈ st.messages,
      ¬((x.sender == m.sender && x.sequence == m.sequence) = true) :=
    List.filter_eq_nil_iff.mp hfilter
  have hany : (st.messages.any
      fun m2 => m2.sender == m.sender && m2.sequence == m.sequence) = false := by
    rw [← Bool.not_eq_true, List.any_eq_true]
    rintro ⟨x, hx, hpx⟩
    exact hnotmem x hx hpx
  have happ : Core.applyMessage st m =
      { st with messages := st.messages ++ [m] } := by
    simp [Core.applyMessage, hany]
  have hcount1 :
      Core.countKey (st.messages ++ [m]) m.sender m.sequence = 1 := by
    rw [Core.countKey, List.filter_append, hfilter]
    simp
  have hd1 := deliverMessage_known r m st h1
  have hany2 : ((Core.applyMessage st m).messages.any
      fun m2 => m2.sender == m.sender && m2.sequence == m.sequence) = true := by
    rw [happ, List.any_eq_true]
    exact ⟨m, by simp, by simp⟩
  have happ2 : Core.applyMessage (Core.applyMessage st m) m =
      Core.applyMessage st m := by
    rw [Core.applyMessage, if_pos hany2]
  have hd2 := deliverMessage_known (Core.deliverMessage r m) m
    (Core.applyMessage st m) hd1
  rw [happ2] at hd2
  refine ⟨hd2, ?_⟩
  rw [happ, hcount1]

/-- Registry fixture: one known group with no messages yet. -/
def C8registry : Core.GroupRegistry :=
  ⟨fun g => if g = "group-1" then some ⟨["alice"], []⟩ else none⟩

/-- Message fixture delivered twice in the C8 witness. -/
def C8message : Core.GroupMessage := ⟨"alice", "group-1", "hello", 5, 1⟩

/-- Witness for C8: two deliveries of the concrete message leave exactly one
copy of its (sender, sequence) key in the group state. -/
theorem C8_duplicate_delivery_one_copy_witness :
    Core.getGroupState
        (Core.deliverMessage (Core.deliverMessage C8registry C8message)
          C8message) C8message.groupId =
      some (Core.applyMessage ⟨["alice"], []⟩ C8message)
    ∧ Core.countKey (Core.applyMessage ⟨["alice"], []⟩ C8message).messages
        C8message.sender C8message.sequence = 1 :=
  C8_duplicate_delivery_one_copy C8registry ⟨["alice"], []⟩ C8message
    (by simp [C8registry, C8message]) rfl

/-!
Claim C6 — the linear-fallback fetch.
-/

/-- Helper: the fallback walk finds bytes exactly when some listed provider's
attempt succeeds. -/
theorem fetchFallback_success_iff (net : Core.Network) (key : Core.ContentKey) :
    ∀ l : List Core.PeerId,
      ((∃ bs, (Core.fetchFallback net key l).2 = some bs) ↔
        ∃ p ∈ l, Core.attemptFetch net key p ≠ none)
  | [] => by simp [Core.fetchFallback]
  | p :: ps => by
    cases ha : Core.attemptFetch net key p with
    | some bs => simp [Core.fetchFallback, ha]
    | none =>
      have ih := fetchFallback_success_iff net key ps
      simp only [Core.fetchFallback, ha, List.mem_cons]
      constructor
      · intro hex
        obtain ⟨q, hq, hgood⟩ := ih.mp hex
        exact ⟨q, Or.inr hq, hgood⟩
      · rintro ⟨q, hq | hq, hgood⟩
        · exact absurd ha (hq ▸ hgood)
        · exact ih.mpr ⟨q, hq, hgood⟩

/-- Helper: one step of the fallback walk. -/
theorem fetchFallback_cons (net : Core.Network) (key : Core.ContentKey)
    (p : Core.PeerId) (ps : List Core.PeerId) :
    Core.fetchFallback net key (p :: ps) =
      match Core.attemptFetch net key p with
      | some bs => ([p], some bs)
      | none =>
        (p :: (Core.fetchFallback net key ps).1,
         (Core.fetchFallback net key ps).2) := by
  cases ha : Core.attemptFetch net key p <;> simp [Core.fetchFallback, ha]

/-- Helper: when every provider but the last fails, the fallback walk
attempts the whole list — the last provider is still attempted. -/
theorem fetchFallback_attempts_all (net : Core.Network) (key : Core.ContentKey) :
    ∀ l : List Core.PeerId,
      (∀ p ∈ l.dropLast, Core.attemptFetch net key p = none) →
      (Core.fetchFallback net key l).1 = l
  | [], _ => by simp [Core.fetchFallback]
  | [p], _ => by
    cases ha : Core.attemptFetch net key p <;> simp [Core.fetchFallback, ha]
  | p :: q :: qs, h => by
    have hp : Core.attemptFetch net key p = none := h p (by simp)
    have ih := fetchFallback_attempts_all net key (q :: qs)
      (fun x hx => h x (by simp [hx]))
    rw [fetchFallback_cons, hp]
    exact congrArg (List.cons p) ih

/-- Helper: a transfer attempt succeeds exactly for a currently reachable
provider that holds valid content — it serves bytes whose count matches the
advertised size. -/
theorem attemptFetch_ne_none_iff (net : Core.Network) (key : Core.ContentKey)
    (p : Core.PeerId) :
    Core.attemptFetch net key p ≠ none ↔
      (net.reachable p = true ∧ ∃ bs, net.serves p key = some bs ∧
        bs.length = net.advertisedSize key) := by
  rw [Core.attemptFetch]
  cases hr : net.reachable p with
  | false => simp
  | true =>
    cases hs : net.serves p key with
    | none => simp
    | some bs =>
      by_cases hl : bs.length = net.advertisedSize key <;> simp [hl]

/-- Helper: with the directory online, fetch walks exactly the directory's
provider list and succeeds exactly when the walk does. -/
theorem fetch_result_online (net : Core.Network) (key : Core.ContentKey)
    (h : net.directory.online = true) :
    (Core.fetch net key).1 =
      (Core.fetchFallback net key (Core.providersFor net.directory key)).1
    ∧ ((∃ bs, (Core.fetch net key).2 = Except.ok bs) ↔
      ∃ bs, (Core.fetchFallback net key
        (Core.providersFor net.directory key)).2 = some bs) := by
  have hfp : Core.findProviders net.directory key =
      Except.ok (Core.providersFor net.directory key) := by
    simp [Core.findProviders, h]
  cases hw : (Core.fetchFallback net key (Core.providersFor net.directory key)).2 with
  | none => exact ⟨by simp [Core.fetch, hfp, hw], by simp [Core.fetch, hfp, hw]⟩
  | some bs => exact ⟨by simp [Core.fetch, hfp, hw], by simp [Core.fetch, hfp, hw]⟩

/-- C6: with the directory reachable, fetch(contentKey) succeeds if and only
if at least one provider returned by the directory is currently reachable and
holds valid content for the key; and whenever all providers before the last
fail, every returned provider — the last included — is attempted before the
fetch fails. -/
theorem C6_fetch_linear_fallback (net : Core.Network) (key : Core.ContentKey)
    (h : net.directory.online = true) :
    ((∃ bs, (Core.fetch net key).2 = Except.ok bs) ↔
      ∃ p ∈ Core.providersFor net.directory key,
        net.reachable p = true ∧ ∃ bs, net.serves p key = some bs ∧
          bs.length = net.advertisedSize key)
    ∧ ((∀ p ∈ (Core.providersFor net.directory key).dropLast,
          ¬(net.reachable p = true ∧ ∃ bs, net.serves p key = some bs ∧
            bs.length = net.advertisedSize key)) →
        (Core.fetch net key).1 = Core.providersFor net.directory key) := by
  obtain ⟨h1, h2⟩ := fetch_result_online net key h
  constructor
  · rw [h2, fetchFallback_success_iff]
    constructor
    · rintro ⟨p, hp, hgood⟩
      exact ⟨p, hp, (attemptFetch_ne_none_iff net key p).mp hgood⟩
    · rintro ⟨p, hp, hgood⟩
      exact ⟨p, hp, (attemptFetch_ne_none_iff net key p).mpr hgood⟩
  · intro hfail
    rw [h1]
    apply fetchFallback_attempts_all
    intro p hp
    cases hA : Core.attemptFetch net key p with
    | none => rfl
    | some bs =>
      exact absurd ((attemptFetch_ne_none_iff net key p).mp (by simp [hA]))
        (hfail p hp)

/-- Network fixture for the C6 witness: the directory returns three providers
for key "k"; the first is unreachable, the second serves bytes of the wrong
size, the third serves valid content of the advertised size. -/
def C6net : Core.Network :=
  ⟨⟨[("k", "p1"), ("k", "p2"), ("k", "p3")], true⟩,
   fun p => p != "p1",
   fun p _ => if p = "p2" then some [7] else if p = "p3" then some [7, 8, 9] else none,
   fun _ => 3⟩

/-- Witness for C6: on the concrete network the first two providers fail, the
third is still attempted (all three providers are walked) and the fetch
succeeds. -/
theorem C6_fetch_linear_fallback_witness :
    (∃ bs, (Core.fetch C6net "k").2 = Except.ok bs)
    ∧ (Core.fetch C6net "k").1 = Core.providersFor C6net.directory "k" := by
  have h := C6_fetch_linear_fallback C6net "k" rfl
  refine ⟨h.1.mpr ⟨"p3", by decide, rfl, [7, 8, 9], rfl, rfl⟩, h.2 ?_⟩
  intro p hp
  have hmem : p = "p1" ∨ p = "p2" := by
    have hdl : (Core.providersFor C6net.directory "k").dropLast = ["p1", "p2"] := rfl
    rw [hdl] at hp
    simpa using hp
  rcases hmem with rfl | rfl
  · rintro ⟨hr, -⟩
    exact absurd hr (by decide)
  · rintro ⟨-, bs, hbs, hlen⟩
    have hserves : C6net.serves "p2" "k" = some [7] := rfl
    rw [hserves] at hbs
    injection hbs with hbs2
    subst hbs2
    exact absurd hlen (by decide)
